import Mathlib

/-!
# mt::timer (include/mt/timer.h)

A shallow embedding of the two `mt::timer` classes of `include/mt/timer.h`:

* `mt.posix.timer`: the `#ifndef _WIN32` class, which owns a `std::thread`
  running the drift-compensated loop `timer::run`;
* `mt.win32.timer`: the `#else` class, which registers a recurring timer with
  the Win32 timer-queue facility.

Member functions become functions on an explicit state record.  Everything the
code obtains from outside (whether a thread can be created, results of the
Win32 calls, the value of the flag and
the measured time observed by the loop) is a parameter.  Each record carries a
few ghost fields that log the resources created, so that "no worker is created"
and "the period handed to the OS" can be stated.
-/

namespace mt

/-! ## Machine integers -/

/-- Number of values of `uint32_t` (and of `unsigned int`, 32 bits wide). -/
def UINT32_MOD : Nat := 4294967296

/-- Value of a mathematical integer as a signed 64-bit integer (two's complement). -/
def to_int64 (x : Int) : Int := (x + 9223372036854775808) % 18446744073709551616 - 9223372036854775808

/-- The default argument of `start`, `= 1000`, in both classes. -/
def default_interval : Nat := 1000

namespace posix

/-! ## The self-managed class (`#ifndef _WIN32`) -/

/-- State of a `timer` object.  `thread` is the `std::thread` member: `none` is a
thread object that is not joinable, `some w` one that owns worker `w`.
`spawned` and `live` are ghost fields: the number of workers created so far and
the workers created and not yet joined. -/
structure timer where
  runned : Bool
  thread : Option Nat
  interval : Nat
  spawned : Nat
  live : List Nat
  deriving DecidableEq, Repr

/-- How a call of `start` ends: it returns; or the exception `std::system_error`
of the `std::thread` constructor leaves it, the object being left in the state
given; or `std::terminate` is called. -/
inductive Outcome where
  | returned (t : timer)
  | threw (t : timer)
  | terminated
  deriving DecidableEq, Repr

/-- The state of the object after the call, when the program goes on. -/
def Outcome.state : Outcome → Option timer
  | Outcome.returned t => some t
  | Outcome.threw t => some t
  | Outcome.terminated => none

/-- The constructor: `runned(false), thread(), callback(callback_), interval(1000)`. -/
def timer.ctor : timer :=
  { runned := false, thread := none, interval := 1000, spawned := 0, live := [] }

/-- Member `start(interval_)`.  `created` is what the system answers when the
`std::thread` is constructed: `true` when the worker is started, `false` when
the constructor throws `std::system_error`; it is consulted only when the
constructor runs.  `Outcome.terminated` is `std::terminate`, which the move
assignment of `std::thread` calls when the assigned-to object is joinable. -/
def timer.start (t : timer) (created : Bool) (interval_ : Nat) : Outcome :=
  if !t.runned then
    -- interval = interval_; runned = true;
    let t1 := { t with interval := interval_, runned := true }
    -- std::thread(&timer::run, this)
    if created then
      -- a new worker comes alive
      let w := t1.spawned
      let t2 := { t1 with spawned := t1.spawned + 1, live := w :: t1.live }
      -- thread = <temporary>
      match t2.thread with
      | some _ => Outcome.terminated
      | none => Outcome.returned { t2 with thread := some w }
    else
      Outcome.threw t1
  else
    Outcome.returned t

/-- Call `start()` without an argument: the caller passes the default argument. -/
def timer.start_default (t : timer) (created : Bool) : Outcome :=
  t.start created default_interval

/-- Member `stop()`.  `join` returns once the worker has left `run`; afterwards
the thread object is not joinable. -/
def timer.stop (t : timer) : timer :=
  if t.runned then
    let t1 := { t with runned := false }
    match t1.thread with
    | some w => { t1 with thread := none, live := t1.live.erase w }
    | none => t1
  else
    t

/-- The destructor `~timer()`: its body is `stop();`. -/
def timer.dtor (t : timer) : timer :=
  t.stop

/-- The argument of `sleep_for` in `run`:
`std::chrono::microseconds((interval * 1000) - elapsed)`.
`interval` is `uint32_t` and `1000` is `int`, so the product is computed in
32-bit unsigned arithmetic; `elapsed` is the signed 64-bit `count()`, so the
difference is computed in signed 64-bit arithmetic. -/
def sleep_duration (interval : Nat) (elapsed : Int) : Int :=
  to_int64 ((((interval * 1000) % UINT32_MOD : Nat) : Int) - elapsed)

/-- The loop `run`, against the values it observes: each entry of `obs` is one
evaluation of the loop condition, giving the value read from `runned` and, when
the body is entered, the `elapsed` value measured around the callback.  The
result lists the durations handed to `sleep_for`, in order. -/
def run (interval : Nat) : List (Bool × Int) → List Int
  | [] => []
  | (flag, elapsed) :: rest =>
    if flag then sleep_duration interval elapsed :: run interval rest else []

/-- Calls a controlling context can make on a timer object; a `start` comes with
the answer the system gives when the thread is constructed. -/
inductive Op where
  | start (created : Bool) (interval_ : Nat)
  | stop
  deriving DecidableEq, Repr

/-- One call; an exception thrown by `start` is caught by the caller, the object
lives on.  `none` is `std::terminate`. -/
def step (t : timer) : Op → Option timer
  | Op.start c j => (t.start c j).state
  | Op.stop => some t.stop

/-- A finite sequence of calls, left to right; `none` once `std::terminate` was reached. -/
def exec (t : timer) : List Op → Option timer
  | [] => some t
  | op :: ops => (step t op).bind fun t1 => exec t1 ops

/-- States reachable from a freshly constructed timer by `start` and `stop` calls. -/
def Reachable (t : timer) : Prop :=
  ∃ ops : List Op, exec timer.ctor ops = some t

/-- A joinable thread object only when `runned` holds; the live workers are
exactly the one owned by the thread object; workers are numbered in order. -/
def Inv (t : timer) : Prop :=
  (t.thread.isSome = true → t.runned = true) ∧ t.live = t.thread.toList ∧
    ∀ w, t.thread = some w → w < t.spawned

/-- The thread object is joinable exactly when `runned` holds. -/
def JoinableIffRunning (t : timer) : Prop :=
  t.thread.isSome = true ↔ t.runned = true

/-- Whether, in a sequence of calls, every `start` since the last `stop` had its
thread constructed; `ok` is the answer for the calls before the sequence. -/
def threads_created (ok : Bool) : List Op → Bool
  | [] => ok
  | Op.stop :: ops => threads_created true ops
  | Op.start c _ :: ops => threads_created (ok && c) ops

/-- A running timer: constructed, then `start(250)`. -/
def running_example : timer :=
  { runned := true, thread := some 0, interval := 250, spawned := 1, live := [0] }

/-- A timer after one full cycle and a second `start`: `start(5); stop(); start(7)`. -/
def cycled_example : timer :=
  { runned := true, thread := some 1, interval := 7, spawned := 2, live := [1] }

/-- A fresh timer after `start(1000)` during which the `std::thread` constructor threw. -/
def failed_creation_example : timer :=
  { runned := true, thread := none, interval := 1000, spawned := 0, live := [] }

end posix

namespace win32

/-! ## The host-managed class (`#else`, Win32 timer queues) -/

/-- A Win32 `HANDLE`; `NULL` is `0`. -/
abbrev HANDLE := Nat

/-- The null handle. -/
def NULL : HANDLE := 0

/-- A call made to the timer-queue facility, with the values passed and returned. -/
inductive OsCall where
  | CreateTimerQueue (result : HANDLE)
  | CreateTimerQueueTimer (queue : HANDLE) (dueTime period : Nat) (result : Option HANDLE)
  | DeleteTimerQueueTimer (queue : HANDLE) (timer : HANDLE)
  | DeleteTimerQueue (queue : HANDLE)
  deriving DecidableEq, Repr

/-- What the facility answers during one `start`: `queue` is the value returned
by `CreateTimerQueue` (`NULL` on failure); `newTimer` is the outcome of
`CreateTimerQueueTimer`, `none` for `FALSE` (nothing is written through
`&hTimer`) and `some h` for `TRUE` with `h` written through `&hTimer`. -/
structure Os where
  queue : HANDLE
  newTimer : Option HANDLE
  deriving DecidableEq, Repr

/-- State of a `timer` object.  `calls` is a ghost field: the calls made to the
facility so far, oldest first. -/
structure timer where
  hTimer : HANDLE
  hTimerQueue : HANDLE
  runned : Bool
  calls : List OsCall
  deriving DecidableEq, Repr

/-- How a member function ends: the state it leaves and the exception thrown, if any. -/
structure Result where
  state : timer
  thrown : Option String
  deriving DecidableEq, Repr

/-- The constructor: `hTimer(NULL), hTimerQueue(NULL), runned(false)`. -/
def timer.ctor : timer :=
  { hTimer := NULL, hTimerQueue := NULL, runned := false, calls := [] }

/-- Member `start(interval)`. -/
def timer.start (t : timer) (os : Os) (interval : Nat) : Result :=
  if t.runned || t.hTimerQueue != NULL then
    { state := t, thrown := none }
  else
    -- hTimerQueue = CreateTimerQueue();
    let t1 := { t with hTimerQueue := os.queue,
                       calls := t.calls ++ [OsCall.CreateTimerQueue os.queue] }
    if t1.hTimerQueue == NULL then
      { state := t1, thrown := some "Error CreateTimerQueue()" }
    else
      -- CreateTimerQueueTimer(&hTimer, hTimerQueue, TimerRoutine, this, 0, interval, ...)
      let t2 := { t1 with calls := t1.calls ++
                    [OsCall.CreateTimerQueueTimer t1.hTimerQueue 0 interval os.newTimer] }
      match os.newTimer with
      | none => { state := t2, thrown := some "Error CreateTimerQueueTimer()" }
      | some h => { state := { t2 with hTimer := h, runned := true }, thrown := none }

/-- Call `start()` without an argument: the caller passes the default argument. -/
def timer.start_default (t : timer) (os : Os) : Result :=
  t.start os default_interval

/-- Member `stop()`. -/
def timer.stop (t : timer) : timer :=
  if !t.runned then
    t
  else
    let t1 :=
      if t.hTimer != NULL && t.hTimerQueue != NULL then
        { t with calls := t.calls ++ [OsCall.DeleteTimerQueueTimer t.hTimerQueue t.hTimer],
                 hTimer := NULL }
      else t
    let t2 :=
      if t1.hTimerQueue != NULL then
        { t1 with calls := t1.calls ++ [OsCall.DeleteTimerQueue t1.hTimerQueue],
                  hTimerQueue := NULL }
      else t1
    { t2 with runned := false }

/-- The destructor `~timer()`: its body is `stop();`. -/
def timer.dtor (t : timer) : timer :=
  t.stop

/-- Calls a controlling context can make on a timer object; a `start` comes with
the answers the facility gives during it. -/
inductive Op where
  | start (os : Os) (interval : Nat)
  | stop
  deriving DecidableEq, Repr

/-- One call; an exception thrown by `start` is caught by the caller, the object lives on. -/
def step (t : timer) : Op → timer
  | Op.start os j => (t.start os j).state
  | Op.stop => t.stop

/-- A finite sequence of calls, left to right. -/
def exec (t : timer) : List Op → timer
  | [] => t
  | op :: ops => exec (step t op) ops

/-- States reachable from a freshly constructed timer by `start` and `stop` calls. -/
def Reachable (t : timer) : Prop :=
  ∃ ops : List Op, exec timer.ctor ops = t

/-- The state `Idle`: not running and no host handle held. -/
def Idle (t : timer) : Prop :=
  t.runned = false ∧ t.hTimer = NULL ∧ t.hTimerQueue = NULL

/-- The periods handed to `CreateTimerQueueTimer` in a log of calls, oldest first. -/
def periods : List OsCall → List Nat
  | [] => []
  | OsCall.CreateTimerQueueTimer _ _ p _ :: cs => p :: periods cs
  | _ :: cs => periods cs

/-- A running timer: constructed, then `start(250)` with both creation steps succeeding. -/
def running_example : timer :=
  { hTimer := 9, hTimerQueue := 8, runned := true,
    calls := [OsCall.CreateTimerQueue 8, OsCall.CreateTimerQueueTimer 8 0 250 (some 9)] }

/-- The object after construction and one `start(1000)` during which
`CreateTimerQueue` returns the handle `7` and `CreateTimerQueueTimer` fails. -/
def after_failed_registration : Result :=
  timer.ctor.start { queue := 7, newTimer := none } 1000

/-- Both creation steps succeed: queue handle `8`, timer handle `9`. -/
def os_ok : Os := { queue := 8, newTimer := some 9 }

/-- What holds of every state reached when no timer registration fails: a
running timer holds a queue handle, a timer that is not running is `Idle`. -/
def Clean (t : timer) : Prop :=
  (t.runned = true → t.hTimerQueue ≠ NULL) ∧ (t.runned = false → Idle t)

/-- In these answers a created queue is always followed by a successful timer registration. -/
def Os.registers (os : Os) : Prop :=
  os.queue ≠ NULL → os.newTimer ≠ none

/-- No `start` of the sequence has its timer registration fail. -/
def NoFailedRegistration : List Op → Prop
  | [] => True
  | Op.start os _ :: ops => os.registers ∧ NoFailedRegistration ops
  | Op.stop :: ops => NoFailedRegistration ops

end win32


/-! ## The self-managed class: lemmas -/

namespace posix

theorem inv_ctor : Inv timer.ctor := by
  refine ⟨?_, rfl, ?_⟩
  · intro h; simp [timer.ctor] at h
  · intro w h; simp [timer.ctor] at h

theorem start_of_runned (t : timer) (c : Bool) (j : Nat) (h : t.runned = true) :
    t.start c j = Outcome.returned t := by
  simp [timer.start, h]

theorem start_of_idle (t : timer) (j : Nat) (hr : t.runned = false) (ht : t.thread = none) :
    t.start true j = Outcome.returned
      { runned := true, thread := some t.spawned, interval := j,
        spawned := t.spawned + 1, live := t.spawned :: t.live } := by
  simp [timer.start, hr, ht]

theorem start_of_idle_failed (t : timer) (j : Nat) (hr : t.runned = false) :
    t.start false j = Outcome.threw { t with interval := j, runned := true } := by
  simp [timer.start, hr]

theorem stop_of_not_runned (t : timer) (h : t.runned = false) : t.stop = t := by
  simp [timer.stop, h]

theorem stop_runned (t : timer) : t.stop.runned = false := by
  cases hr : t.runned with
  | false => simp [timer.stop, hr]
  | true => cases hth : t.thread <;> simp [timer.stop, hr, hth]

theorem thread_none_of_idle (t : timer) (h : Inv t) (hr : t.runned = false) :
    t.thread = none := by
  cases hth : t.thread with
  | none => rfl
  | some w =>
    have := h.1 (by simp [hth])
    rw [hr] at this
    cases this

theorem inv_start (t : timer) (c : Bool) (j : Nat) (h : Inv t) :
    ∃ t1, (t.start c j).state = some t1 ∧ Inv t1 ∧
      (c = true → JoinableIffRunning t → JoinableIffRunning t1) := by
  cases hr : t.runned with
  | true =>
    refine ⟨t, ?_, h, fun _ hj => hj⟩
    rw [start_of_runned t c j hr]; rfl
  | false =>
    have ht := thread_none_of_idle t h hr
    cases c with
    | true =>
      refine ⟨_, by rw [start_of_idle t j hr ht]; rfl, ⟨fun _ => rfl, ?_, ?_⟩, fun _ _ => ?_⟩
      · simp [h.2.1, ht]
      · intro w hw
        simp only [Option.some.injEq] at hw
        subst hw
        exact Nat.lt_succ_self _
      · simp [JoinableIffRunning]
    | false =>
      refine ⟨{ t with interval := j, runned := true },
        by rw [start_of_idle_failed t j hr]; rfl, ⟨fun _ => rfl, h.2.1, h.2.2⟩, fun hc => ?_⟩
      cases hc

theorem inv_stop (t : timer) (h : Inv t) :
    Inv t.stop ∧ t.stop.thread = none ∧ t.stop.live = [] := by
  obtain ⟨_, h2, h3⟩ := h
  cases hr : t.runned with
  | false =>
    have ht := thread_none_of_idle t ⟨‹_›, h2, h3⟩ hr
    rw [stop_of_not_runned t hr]
    exact ⟨⟨‹_›, h2, h3⟩, ht, by rw [h2, ht]; rfl⟩
  | true =>
    cases hth : t.thread with
    | none =>
      have : t.stop = { t with runned := false } := by
        simp [timer.stop, hr, hth]
      rw [this]
      refine ⟨⟨?_, ?_, ?_⟩, hth, ?_⟩
      · intro hs; simp [hth] at hs
      · simp [h2, hth]
      · intro w hw; simp [hth] at hw
      · simp [h2, hth]
    | some w =>
      have : t.stop = { t with runned := false, thread := none, live := t.live.erase w } := by
        simp [timer.stop, hr, hth]
      rw [this]
      refine ⟨⟨?_, ?_, ?_⟩, rfl, ?_⟩
      · intro hs; simp at hs
      · simp [h2, hth]
      · intro w1 hw1; simp at hw1
      · simp [h2, hth]

theorem joinable_iff_running_stop (t : timer) (h : Inv t) : JoinableIffRunning t.stop := by
  have hs := inv_stop t h
  simp [JoinableIffRunning, hs.2.1, stop_runned t]

theorem inv_exec (ops : List Op) :
    ∀ (t : timer) (ok : Bool), Inv t → (ok = true → JoinableIffRunning t) →
      ∃ t1, exec t ops = some t1 ∧ Inv t1 ∧
        (threads_created ok ops = true → JoinableIffRunning t1) := by
  induction ops with
  | nil => intro t ok h hj; exact ⟨t, rfl, h, hj⟩
  | cons op ops ih =>
    intro t ok h hj
    cases op with
    | start c j =>
      obtain ⟨t1, h1, hi1, hj1⟩ := inv_start t c j h
      obtain ⟨t2, h2, hi2, hj2⟩ := ih t1 (ok && c) hi1 (fun hoc => by
        simp only [Bool.and_eq_true] at hoc
        exact hj1 hoc.2 (hj hoc.1))
      exact ⟨t2, by simp [exec, step, h1, h2], hi2, hj2⟩
    | stop =>
      obtain ⟨t2, h2, hi2, hj2⟩ := ih t.stop true (inv_stop t h).1
        (fun _ => joinable_iff_running_stop t h)
      exact ⟨t2, by simp [exec, step, h2], hi2, hj2⟩

theorem inv_of_reachable (t : timer) (h : Reachable t) : Inv t := by
  obtain ⟨ops, hops⟩ := h
  obtain ⟨t1, h1, hi1, _⟩ := inv_exec ops timer.ctor true inv_ctor
    (fun _ => by simp [JoinableIffRunning, timer.ctor])
  rw [hops] at h1
  cases h1
  exact hi1

end posix


/-! ## The host-managed class: lemmas -/

namespace win32

theorem host_start_of_runned (t : timer) (os : Os) (j : Nat) (h : t.runned = true) :
    t.start os j = { state := t, thrown := none } := by
  simp [timer.start, h]

theorem host_start_of_queue_held (t : timer) (os : Os) (j : Nat) (h : t.hTimerQueue ≠ NULL) :
    t.start os j = { state := t, thrown := none } := by
  simp [timer.start, h]

theorem host_stop_of_not_runned (t : timer) (h : t.runned = false) : t.stop = t := by
  simp [timer.stop, h]

theorem host_stop_runned (t : timer) : t.stop.runned = false := by
  cases hr : t.runned with
  | false => simp [timer.stop, hr]
  | true => simp [timer.stop, hr]

theorem periods_append (xs ys : List OsCall) : periods (xs ++ ys) = periods xs ++ periods ys := by
  induction xs with
  | nil => rfl
  | cons c cs ih => cases c <;> simp [periods, ih]

/-- Queue creation fails: an exception, and the object is as it was, up to the log. -/
theorem start_queue_failure (t : timer) (os : Os) (j : Nat) (ht : Idle t) (hq : os.queue = NULL) :
    t.start os j = { state := { t with calls := t.calls ++ [OsCall.CreateTimerQueue NULL] },
                     thrown := some "Error CreateTimerQueue()" } := by
  obtain ⟨h1, _, h3⟩ := ht
  simp [timer.start, h1, h3, hq]

/-- Queue creation succeeds and timer registration fails: an exception, and the
queue handle stays in the object. -/
theorem start_registration_failure (t : timer) (os : Os) (j : Nat) (ht : Idle t)
    (hq : os.queue ≠ NULL) (hn : os.newTimer = none) :
    t.start os j = { state := { t with hTimerQueue := os.queue,
                                       calls := t.calls ++ [OsCall.CreateTimerQueue os.queue,
                                         OsCall.CreateTimerQueueTimer os.queue 0 j none] },
                     thrown := some "Error CreateTimerQueueTimer()" } := by
  obtain ⟨h1, _, h3⟩ := ht
  simp [timer.start, h1, h3, hq, hn]

/-- Both creation steps succeed. -/
theorem start_success (t : timer) (os : Os) (j : Nat) (h : HANDLE) (ht : Idle t)
    (hq : os.queue ≠ NULL) (hn : os.newTimer = some h) :
    t.start os j = { state := { hTimer := h, hTimerQueue := os.queue, runned := true,
                                calls := t.calls ++ [OsCall.CreateTimerQueue os.queue,
                                  OsCall.CreateTimerQueueTimer os.queue 0 j (some h)] },
                     thrown := none } := by
  obtain ⟨h1, _, h3⟩ := ht
  simp [timer.start, h1, h3, hq, hn]

end win32

/-! ## The loop arithmetic, destruction and the example states -/

namespace posix

/-- Without wrap-around of the 32-bit product the duration is the exact difference. -/
theorem sleep_duration_exact (interval : Nat) (e : Int) (hi : interval * 1000 < UINT32_MOD)
    (he0 : 0 ≤ e) (he1 : e < 9223372036854775808) :
    sleep_duration interval e = (interval : Int) * 1000 - e := by
  unfold sleep_duration to_int64
  unfold UINT32_MOD at *
  rw [Nat.mod_eq_of_lt hi]
  push_cast
  omega

/-- The duration is the wrapped product minus the elapsed time, as a signed value. -/
theorem sleep_duration_wrapped (interval : Nat) (e : Int)
    (he0 : 0 ≤ e) (he1 : e < 9223372036854775808) :
    sleep_duration interval e = ((interval * 1000 % UINT32_MOD : Nat) : Int) - e := by
  unfold sleep_duration to_int64
  have : interval * 1000 % UINT32_MOD < 4294967296 := Nat.mod_lt _ (by decide)
  omega

/-- After the destructor of a reachable object: not running, thread object not
joinable, no live worker. -/
theorem dtor_clean (s : timer) (h : Reachable s) :
    s.dtor.runned = false ∧ s.dtor.thread = none ∧ s.dtor.live = [] :=
  ⟨stop_runned s, (inv_stop s (inv_of_reachable s h)).2⟩

theorem running_example_eq : timer.ctor.start true 250 = Outcome.returned running_example := rfl

theorem cycled_example_eq :
    exec timer.ctor [Op.start true 5, Op.stop, Op.start true 7] = some cycled_example := rfl

theorem failed_creation_example_eq :
    timer.ctor.start false 1000 = Outcome.threw failed_creation_example := rfl

end posix

namespace win32

theorem host_running_example_eq :
    (timer.ctor.start { queue := 8, newTimer := some 9 } 250).state = running_example := by
  decide

theorem clean_ctor : Clean timer.ctor :=
  ⟨fun h => by simp [timer.ctor] at h, fun _ => ⟨rfl, rfl, rfl⟩⟩

theorem clean_start (t : timer) (os : Os) (j : Nat) (h : Clean t) (ho : os.registers) :
    Clean (t.start os j).state := by
  cases hr : t.runned with
  | true => rw [host_start_of_runned t os j hr]; exact h
  | false =>
    have hidle := h.2 hr
    by_cases hq : os.queue = NULL
    · rw [start_queue_failure t os j hidle hq]
      refine ⟨fun h1 => ?_, fun _ => ⟨hidle.1, hidle.2.1, hidle.2.2⟩⟩
      simp [hidle.1] at h1
    · cases hn : os.newTimer with
      | none => exact absurd hn (ho hq)
      | some hd =>
        rw [start_success t os j hd hidle hq hn]
        exact ⟨fun _ => hq, fun h1 => by simp at h1⟩

theorem host_stop_of_runned (t : timer) (hr : t.runned = true) (hq : t.hTimerQueue ≠ NULL) :
    t.stop.runned = false ∧ t.stop.hTimer = NULL ∧ t.stop.hTimerQueue = NULL := by
  by_cases ht : t.hTimer = NULL
  · simp [timer.stop, hr, hq, ht]
  · simp [timer.stop, hr, hq, ht]

theorem clean_stop (t : timer) (h : Clean t) : Clean t.stop := by
  cases hr : t.runned with
  | false => rw [host_stop_of_not_runned t hr]; exact h
  | true =>
    have hs := host_stop_of_runned t hr (h.1 hr)
    exact ⟨fun h1 => by rw [hs.1] at h1; simp at h1, fun _ => hs⟩

theorem clean_exec (ops : List Op) :
    ∀ t : timer, Clean t → NoFailedRegistration ops → Clean (exec t ops) := by
  induction ops with
  | nil => intro t h _; exact h
  | cons op ops ih =>
    intro t h hn
    cases op with
    | start os j => exact ih _ (clean_start t os j h hn.1) hn.2
    | stop => exact ih _ (clean_stop t h) hn

/-- After the destructor of an object on which no timer registration has failed:
not running and both handles empty. -/
theorem host_dtor_clean (ops : List Op) (hn : NoFailedRegistration ops) :
    Idle (exec timer.ctor ops).dtor :=
  (clean_stop _ (clean_exec ops timer.ctor clean_ctor hn)).2 (host_stop_runned _)

/-- After a failed queue creation the timer is `Idle`, and a `start` during which
both steps succeed leaves it running with the registered timer. -/
theorem retry_after_queue_failure (t : timer) (os os2 : Os) (j k : Nat) (h : HANDLE)
    (ht : Idle t) (hq : os.queue = NULL) (hq2 : os2.queue ≠ NULL) (hn2 : os2.newTimer = some h) :
    (t.start os j).thrown = some "Error CreateTimerQueue()" ∧
    Idle (t.start os j).state ∧
    ((t.start os j).state.start os2 k).thrown = none ∧
    ((t.start os j).state.start os2 k).state.runned = true ∧
    ((t.start os j).state.start os2 k).state.hTimer = h ∧
    ((t.start os j).state.start os2 k).state.hTimerQueue = os2.queue := by
  have hidle : Idle (t.start os j).state := by
    rw [start_queue_failure t os j ht hq]
    exact ⟨ht.1, ht.2.1, ht.2.2⟩
  refine ⟨by rw [start_queue_failure t os j ht hq], hidle, ?_, ?_, ?_, ?_⟩ <;>
    rw [start_success _ os2 k h hidle hq2 hn2]

/-- After a failed timer registration the queue handle is kept, and every later
`start` and `stop` leaves the object as it is, not running. -/
theorem stuck_after_registration_failure (t : timer) (os os2 : Os) (j k : Nat)
    (ht : Idle t) (hq : os.queue ≠ NULL) (hn : os.newTimer = none) :
    (t.start os j).state.runned = false ∧
    (t.start os j).state.hTimerQueue = os.queue ∧
    (t.start os j).state.start os2 k = { state := (t.start os j).state, thrown := none } ∧
    (t.start os j).state.stop = (t.start os j).state := by
  have hr : (t.start os j).state.runned = false := by
    rw [start_registration_failure t os j ht hq hn]
    exact ht.1
  have hh : (t.start os j).state.hTimerQueue = os.queue := by
    rw [start_registration_failure t os j ht hq hn]
  exact ⟨hr, hh, host_start_of_queue_held _ os2 k (by rw [hh]; exact hq),
    host_stop_of_not_runned _ hr⟩

end win32

/-! ## The claims -/

/-- C1: in both variants, `start(j)` on a timer whose `runned` is true returns
without error (no `std::terminate`, no exception) and leaves the whole state
unchanged: `runned`, the stored interval, and the logs of workers created and of
calls made to the host facility; this whatever the system would answer to the
creation of a thread or of a host timer. -/
theorem start_while_running_is_noop (tp : posix.timer) (tw : win32.timer) (c : Bool)
    (os : win32.Os) (j : Nat) (hp : tp.runned = true) (hw : tw.runned = true) :
    tp.start c j = posix.Outcome.returned tp ∧
    tw.start os j = { state := tw, thrown := none } :=
  ⟨posix.start_of_runned tp c j hp, win32.host_start_of_runned tw os j hw⟩

theorem start_while_running_is_noop_witness :
    posix.running_example.start true 1000 = posix.Outcome.returned posix.running_example ∧
    win32.running_example.start win32.os_ok 1000
      = { state := win32.running_example, thrown := none } :=
  start_while_running_is_noop posix.running_example win32.running_example true win32.os_ok 1000
    rfl rfl

/-- C2: in both variants, `stop()` on a timer whose `runned` is false leaves the
state unchanged (and the model of `stop` has no error outcome); for every state,
`stop` applied twice gives the same state as `stop` applied once. -/
theorem stop_twice_is_stop (tp : posix.timer) (tw : win32.timer) :
    (tp.runned = false → tp.stop = tp) ∧ (tw.runned = false → tw.stop = tw) ∧
    tp.stop.stop = tp.stop ∧ tw.stop.stop = tw.stop :=
  ⟨posix.stop_of_not_runned tp, win32.host_stop_of_not_runned tw,
   posix.stop_of_not_runned _ (posix.stop_runned tp),
   win32.host_stop_of_not_runned _ (win32.host_stop_runned tw)⟩

theorem stop_twice_is_stop_witness :
    posix.timer.ctor.stop = posix.timer.ctor ∧ win32.timer.ctor.stop = win32.timer.ctor ∧
    posix.running_example.stop.stop = posix.running_example.stop ∧
    win32.running_example.stop.stop = win32.running_example.stop :=
  ⟨(stop_twice_is_stop posix.timer.ctor win32.timer.ctor).1 rfl,
   (stop_twice_is_stop posix.timer.ctor win32.timer.ctor).2.1 rfl,
   (stop_twice_is_stop posix.running_example win32.running_example).2.2⟩

/-- C3: host-managed variant, evaluated where the timer registration fails.
On a fresh timer, `start(1000)` during which `CreateTimerQueue` succeeds and
`CreateTimerQueueTimer` fails throws, leaves `runned` false, and keeps the queue
handle, so the timer is not `Idle`; a following `start` during which both steps
would succeed returns at the guard without calling the facility and without
setting `runned`, and `stop` changes nothing either. -/
theorem failed_registration_blocks_retry :
    win32.after_failed_registration.thrown = some "Error CreateTimerQueueTimer()" ∧
    win32.after_failed_registration.state.runned = false ∧
    win32.after_failed_registration.state.hTimerQueue = 7 ∧
    ¬ win32.Idle win32.after_failed_registration.state ∧
    win32.after_failed_registration.state.start win32.os_ok 1000
      = { state := win32.after_failed_registration.state, thrown := none } ∧
    (win32.after_failed_registration.state.start win32.os_ok 1000).state.runned = false ∧
    win32.after_failed_registration.state.stop = win32.after_failed_registration.state := by
  refine ⟨by decide, by decide, by decide, ?_, by decide, by decide, by decide⟩
  intro h
  exact absurd h.2.2 (by decide)

/-- C4, as stated, fails: on a fresh timer `start(0)` stores the interval `0` in
the self-managed variant and hands the period `0` to `CreateTimerQueueTimer` in
the host-managed variant, and differs from `start(1000)` in both. -/
theorem start_zero_is_not_start_1000 :
    (posix.timer.ctor.start true 0).state.map (fun t => t.interval) = some 0 ∧
    posix.timer.ctor.start true 0 ≠ posix.timer.ctor.start true 1000 ∧
    win32.periods (win32.timer.ctor.start win32.os_ok 0).state.calls = [0] ∧
    win32.timer.ctor.start win32.os_ok 0 ≠ win32.timer.ctor.start win32.os_ok 1000 := by
  decide

/-- C4, amended: for every idle timer and every `j`, zero included, `start(j)`
uses `j` itself: the self-managed variant stores `j`, the host-managed variant
hands `j` as the period to the timer registration; `start()` with no argument
is `start(1000)`. -/
theorem start_uses_given_interval (tp : posix.timer) (tw : win32.timer) (c : Bool)
    (os : win32.Os) (j : Nat) (hp : tp.runned = false) (hpt : tp.thread = none)
    (hw : win32.Idle tw) (hq : os.queue ≠ win32.NULL) :
    (∃ t, (tp.start c j).state = some t ∧ t.interval = j) ∧
    tp.start_default c = tp.start c 1000 ∧
    win32.periods (tw.start os j).state.calls = win32.periods tw.calls ++ [j] ∧
    tw.start_default os = tw.start os 1000 := by
  refine ⟨?_, rfl, ?_, rfl⟩
  · cases c with
    | true => exact ⟨_, by rw [posix.start_of_idle tp j hp hpt]; rfl, rfl⟩
    | false =>
      exact ⟨{ tp with interval := j, runned := true },
        by rw [posix.start_of_idle_failed tp j hp]; rfl, rfl⟩
  cases hn : os.newTimer with
  | none =>
    rw [win32.start_registration_failure tw os j hw hq hn]
    simp [win32.periods_append, win32.periods]
  | some h =>
    rw [win32.start_success tw os j h hw hq hn]
    simp [win32.periods_append, win32.periods]

theorem start_uses_given_interval_witness :
    (∃ t, (posix.timer.ctor.start true 0).state = some t ∧ t.interval = 0) ∧
    posix.timer.ctor.start_default true = posix.timer.ctor.start true 1000 ∧
    win32.periods (win32.timer.ctor.start win32.os_ok 0).state.calls
      = win32.periods win32.timer.ctor.calls ++ [0] ∧
    win32.timer.ctor.start_default win32.os_ok = win32.timer.ctor.start win32.os_ok 1000 :=
  start_uses_given_interval posix.timer.ctor win32.timer.ctor true win32.os_ok 0 rfl rfl
    ⟨rfl, rfl, rfl⟩ (by decide)

/-- C7: host-managed variant, evaluated where the timer registration fails.
The state after construction and one `start` whose timer registration failed is
reachable, and the destructor leaves its queue handle `7` in place without any
call to `DeleteTimerQueue`. -/
theorem dtor_keeps_queue_after_failed_registration :
    win32.Reachable win32.after_failed_registration.state ∧
    win32.after_failed_registration.state.dtor.runned = false ∧
    win32.after_failed_registration.state.dtor.hTimerQueue = 7 ∧
    win32.after_failed_registration.state.dtor.hTimerQueue ≠ win32.NULL ∧
    win32.OsCall.DeleteTimerQueue 7 ∉ win32.after_failed_registration.state.dtor.calls := by
  refine ⟨⟨[win32.Op.start { queue := 7, newTimer := none } 1000], rfl⟩, ?_, ?_, ?_, ?_⟩ <;>
    decide

/-- C9: the loop, evaluated at the interval `4294968` ms with elapsed time `0`.
The product `interval * 1000` wraps in 32-bit unsigned arithmetic: the duration
handed to `sleep_for` is `704` microseconds, the integer `4294968 * 1000 - 0` is
`4294968000`. -/
theorem sleep_duration_wraps :
    (4294968 : Nat) < UINT32_MOD ∧
    posix.sleep_duration 4294968 0 = 704 ∧
    posix.run 4294968 [(true, 0), (false, 0)] = [704] ∧
    posix.sleep_duration 4294968 0 ≠ (4294968 : Int) * 1000 - 0 := by
  decide

/-- C10: self-managed loop.  For every stored interval (any natural number, so
every `uint32_t`) and every elapsed time `e` (non-negative, signed 64-bit) with
`e > interval * 1000`, the duration computed for `sleep_for` is a signed value
less than or equal to zero. -/
theorem sleep_duration_overrun_nonpos (interval : Nat) (e : Int)
    (he0 : 0 ≤ e) (he1 : e < 9223372036854775808) (h : (interval : Int) * 1000 < e) :
    posix.sleep_duration interval e ≤ 0 := by
  rw [posix.sleep_duration_wrapped interval e he0 he1]
  have : interval * 1000 % UINT32_MOD ≤ interval * 1000 := Nat.mod_le _ _
  omega

theorem sleep_duration_overrun_nonpos_witness :
    posix.sleep_duration 1000 1500000 ≤ 0 :=
  sleep_duration_overrun_nonpos 1000 1500000 (by decide) (by decide) (by decide)

end mt
